import Mathlib

/-!
Verification development for the MoodDJ mood-inference pipeline
(`src/Frontend/src/hooks/useEmotion.ts`, primary variant, plus the
documented variants in `src/unnamed/part_005` ("Variant5") and the
tfjs/face-api variant ("Variant3") where a claim refers to them).

JavaScript numbers are modelled as real numbers `ℝ`; `Math.exp`,
`Math.hypot`, `Math.min`/`Math.max` become `Real.exp`, `Real.sqrt` of the
sum of squares, and `min`/`max`.  A JS array access `pts[i]` followed by a
property access, which throws on a missing element, is modelled by
`List.getElem?` in the `Option` monad: `none` is a propagated exception.
Frame-handler state (React refs of `useEmotion`) is an explicit record,
and the `onResults` callback is a step function on that record.
-/

namespace MoodDJ

noncomputable section

/-- Mood labels, from `type Mood = 'happy' | 'neutral' | 'sad'`. -/
inductive Mood where
  | happy
  | neutral
  | sad
deriving DecidableEq

/-- Score vector, from `type Scores = { happy: number; neutral: number; sad: number }`. -/
structure Scores where
  happy : ℝ
  neutral : ℝ
  sad : ℝ

/-- Landmark point, from `type Pt = { x: number; y: number; z?: number }`
(`z` is never read by the pipeline and is omitted). -/
structure Pt where
  x : ℝ
  y : ℝ

/-- Planar distance, from `function d(a, b) { ... Math.hypot(dx, dy) }`. -/
def d (a b : Pt) : ℝ := Real.sqrt ((a.x - b.x) ^ 2 + (a.y - b.y) ^ 2)

/-- Midpoint, from `function avg2(a, b)`. -/
def avg2 (a b : Pt) : Pt := ⟨(a.x + b.x) / 2, (a.y + b.y) / 2⟩

/-- From `function clamp01(v) { return Math.max(0, Math.min(1, v)); }`. -/
def clamp01 (v : ℝ) : ℝ := max 0 (min 1 v)

/-- From `function sigmoid(x) { return 1 / (1 + Math.exp(-x)); }`. -/
def sigmoid (x : ℝ) : ℝ := 1 / (1 + Real.exp (-x))

/-- Neutral-baseline snapshot, the `base` field of `type Calib`. -/
structure BaseCalib where
  eyeGap : ℝ
  mouthOpen : ℝ
  smileUp : ℝ
  mouthWidth : ℝ

/-- Calibration state, from `type Calib = { base: {...} | null; swapNS: boolean }`. -/
structure Calib where
  base : Option BaseCalib
  swapNS : Bool

/-- From `function defaultCalib() { return { base: null, swapNS: false }; }`. -/
def defaultCalib : Calib := ⟨none, false⟩

/-- Feature vector returned by `extractMetrics`. -/
structure Metrics where
  mouthWidth : ℝ
  mouthOpen : ℝ
  eyeOpen : ℝ
  smileUp : ℝ
  scale : ℝ

/-- From `function extractMetrics(pts)`.  The JS accesses the fixed FaceMesh
indices `IDX` (33/133/263/362 eye corners, 61/291 mouth corners, 13/14 inner
lips, 159/145/386/374 eyelids); reading a missing element throws, which is
modelled by the `Option` monad (`none` = exception).  The `|| 1` guard on a
degenerate interocular distance becomes an explicit test against `0`. -/
def extractMetrics (pts : List Pt) : Option Metrics := do
  let lEyeOuter ← pts[33]?
  let lEyeInner ← pts[133]?
  let rEyeOuter ← pts[263]?
  let rEyeInner ← pts[362]?
  let mouthL ← pts[61]?
  let mouthR ← pts[291]?
  let lipUp ← pts[13]?
  let lipLo ← pts[14]?
  let lEyeUp ← pts[159]?
  let lEyeLo ← pts[145]?
  let rEyeUp ← pts[386]?
  let rEyeLo ← pts[374]?
  let leftEyeCtr := avg2 lEyeOuter lEyeInner
  let rightEyeCtr := avg2 rEyeOuter rEyeInner
  let eyeDist0 := d leftEyeCtr rightEyeCtr
  let eyeDist := if eyeDist0 = 0 then 1 else eyeDist0
  let mouthCenter := avg2 lipUp lipLo
  let cornerY := (mouthL.y + mouthR.y) / 2
  let mouthWidth := d mouthL mouthR / eyeDist
  let mouthOpen := d lipUp lipLo / eyeDist
  let eyeOpen := (d lEyeUp lEyeLo + d rEyeUp rEyeLo) / (2 * eyeDist)
  let smileUp := (mouthCenter.y - cornerY) / eyeDist
  pure ⟨mouthWidth, mouthOpen, eyeOpen, smileUp, eyeDist⟩

/-- The default baseline used by `toScores` when no calibration was captured. -/
def defaultBase : BaseCalib := ⟨0.055, 0.025, 0, 0.48⟩

/-- Raw happy evidence from `toScores`:
`0.75 * sigmoid(dSmile * 60) + 0.25 * sigmoid(dOpen * 60)`. -/
def happyRaw (m : Metrics) (b : BaseCalib) : ℝ :=
  0.75 * sigmoid ((m.smileUp - b.smileUp) * 60) +
    0.25 * sigmoid ((m.mouthOpen - b.mouthOpen) * 60)

/-- Raw sad evidence from `toScores`. -/
def sadRaw (m : Metrics) (b : BaseCalib) : ℝ :=
  0.7 * sigmoid (-(m.smileUp - b.smileUp) * 60) +
    0.2 * sigmoid ((b.mouthOpen - m.mouthOpen) * 60) +
    0.1 * sigmoid ((b.eyeGap - m.eyeOpen) * 80)

/-- Raw neutral evidence from `toScores`:
`clamp01(1 - 0.6*Math.min(1, |dSmile|*120) - 0.4*Math.min(1, |dOpen|*120))`. -/
def neutralRaw (m : Metrics) (b : BaseCalib) : ℝ :=
  clamp01 (1 - 0.6 * min 1 (|m.smileUp - b.smileUp| * 120)
    - 0.4 * min 1 (|m.mouthOpen - b.mouthOpen| * 120))

/-- The normalization tail of `toScores`:
`const sum = happy + neutral + sad || 1;` then each component is
`clamp01(value / sum)`. -/
def normalize3 (h n s : ℝ) : Scores :=
  let sum0 := h + n + s
  let sum := if sum0 = 0 then 1 else sum0
  ⟨clamp01 (h / sum), clamp01 (n / sum), clamp01 (s / sum)⟩

/-- From `function toScores(metrics, calib)` (primary variant,
`useEmotion.ts` lines 132-180): baseline defaulting, the three raw
evidences, the optional neutral/sad exchange, then normalization. -/
def toScores (m : Metrics) (c : Calib) : Scores :=
  let b := c.base.getD defaultBase
  let happy := happyRaw m b
  let sad := sadRaw m b
  let neutral := neutralRaw m b
  let neutral2 := if c.swapNS then sad else neutral
  let sad2 := if c.swapNS then neutral else sad
  normalize3 happy neutral2 sad2

/-- Capture mapping used by `captureCalibration`: the baseline snapshot
recorded from the current metrics (`eyeGap: m.eyeOpen, mouthOpen: m.mouthOpen,
smileUp: m.smileUp, mouthWidth: m.mouthWidth`). -/
def captureBase (m : Metrics) : BaseCalib :=
  ⟨m.eyeOpen, m.mouthOpen, m.smileUp, m.mouthWidth⟩

/-- The uniform default score vector `{ happy: 0.33, neutral: 0.34, sad: 0.33 }`
used to initialize `emaRef`/`scores` and to reset after sustained face loss. -/
def defaultScores : Scores := ⟨0.33, 0.34, 0.33⟩

/-- The EMA smoothing factor `const ALPHA = 0.2`. -/
def ALPHA : ℝ := 0.2

/-- One EMA update, from the `smoothed` computation in `onResults`:
`prev + ALPHA * (raw - prev)` componentwise. -/
def emaStep (prev raw : Scores) : Scores :=
  ⟨prev.happy + ALPHA * (raw.happy - prev.happy),
    prev.neutral + ALPHA * (raw.neutral - prev.neutral),
    prev.sad + ALPHA * (raw.sad - prev.sad)⟩

/-- The label derivation in `onResults`:
`happy ≥ neutral && happy ≥ sad ? 'happy' : sad ≥ neutral ? 'sad' : 'neutral'`. -/
def labelOf (s : Scores) : Mood :=
  if s.happy ≥ s.neutral ∧ s.happy ≥ s.sad then Mood.happy
  else if s.sad ≥ s.neutral then Mood.sad
  else Mood.neutral

/-- The mutable state owned by `useEmotion` that the per-frame callback and
calibration operations read and write: the React state `mood`, `scores`,
`tracking`, `faceCount`, and the refs `missFramesRef`, `calibRef`, `emaRef`,
and the `_lastPts` cache on the FaceMesh object. -/
structure EmotionState where
  mood : Mood
  scores : Scores
  tracking : Bool
  faceCount : ℕ
  missFrames : ℕ
  calib : Calib
  ema : Scores
  lastPts : Option (List Pt)

/-- Initial state of a freshly mounted hook: `useState('neutral')`,
`useState({happy:0.33, neutral:0.34, sad:0.33})`, `useRef(0)`,
`useRef(defaultCalib())`, `useRef({happy:0.33, neutral:0.34, sad:0.33})`,
no cached landmarks. -/
def initState : EmotionState :=
  { mood := Mood.neutral
    scores := defaultScores
    tracking := false
    faceCount := 0
    missFrames := 0
    calib := defaultCalib
    ema := defaultScores
    lastPts := none }

/-- The miss branch of `onResults`: increment `missFramesRef`; once it
exceeds 10, force the EMA, displayed scores and mood back to the uniform
default.  `fc` is the reported face count (`faces.length`). -/
def missUpdate (st : EmotionState) (fc : ℕ) : EmotionState :=
  let m := st.missFrames + 1
  if m > 10 then
    { st with
      tracking := false
      faceCount := fc
      missFrames := m
      ema := defaultScores
      scores := defaultScores
      mood := Mood.neutral }
  else
    { st with tracking := false, faceCount := fc, missFrames := m }

/-- The face branch of `onResults`: cache `_lastPts`, extract metrics, score,
smooth, derive the label and clear the miss counter.  In the JS the
`_lastPts` assignment precedes `extractMetrics`; if extraction throws
(missing landmark indices) the exception escapes the handler, modelled by
`none`. -/
def faceUpdate (st : EmotionState) (pts : List Pt) (fc : ℕ) : Option EmotionState :=
  (extractMetrics pts).map fun m =>
    let raw := toScores m st.calib
    let smoothed := emaStep st.ema raw
    { st with
      tracking := true
      faceCount := fc
      lastPts := some pts
      ema := smoothed
      scores := smoothed
      mood := labelOf smoothed
      missFrames := 0 }

/-- One invocation of the `onResults` callback on a detector result
(`res.multiFaceLandmarks || []`).  The guard is the JS truthiness test
`faces.length > 0 && faces[0]?.length`. -/
def stepFrame (st : EmotionState) (faces : List (List Pt)) : Option EmotionState :=
  match faces.head? with
  | some pts =>
      if pts.length = 0 then some (missUpdate st faces.length)
      else faceUpdate st pts faces.length
  | none => some (missUpdate st faces.length)

/-- A no-face frame.  `stepFrame` on an empty result list always succeeds,
so the `getD` default is never used. -/
def stepNoFace (st : EmotionState) : EmotionState :=
  (stepFrame st []).getD st

/-- From `captureCalibration`: only the `'neutral'` label records geometry;
capture is skipped unless a landmark set of at least 400 points is cached.
The `extractMetrics` call cannot fail under that guard (all required indices
are below 400), but its exceptional result is still propagated faithfully. -/
def captureCalibration (w : Mood) (st : EmotionState) : Option EmotionState :=
  if w ≠ Mood.neutral then some st
  else
    match st.lastPts with
    | none => some st
    | some last =>
        if last.length < 400 then some st
        else
          (extractMetrics last).map fun m =>
            { st with calib := { st.calib with base := some (captureBase m) } }

/-- From `clearCalibration`: reset to the default calibration. -/
def clearCalibration (st : EmotionState) : EmotionState :=
  { st with calib := defaultCalib }

/-- From `swapNeutralSad`: toggle the `swapNS` flag. -/
def swapNeutralSad (st : EmotionState) : EmotionState :=
  { st with calib := { st.calib with swapNS := !st.calib.swapNS } }

/-- On remount of the hook (a fresh session / process restart) the
calibration ref is initialized to `defaultCalib()`; no persisted data is
read (source comment: "Calibration stored in-memory; can be swapped to
localStorage if desired").  The previous session's calibration is the
argument and is discarded. -/
def mountCalib (_prior : Calib) : Calib := defaultCalib

/-- The smoother state viewed on its own: the EMA vector (`emaRef`) and the
miss counter (`missFramesRef`).  An event is `some raw` for a frame whose
raw score vector is `raw`, `none` for a no-face frame; this is exactly the
EMA/miss logic of `onResults` with the raw vector abstracted as an input,
as the smoother claims quantify over arbitrary raw vectors. -/
def smootherStep (s : Scores × ℕ) (ev : Option Scores) : Scores × ℕ :=
  match ev with
  | some raw => (emaStep s.1 raw, 0)
  | none => if s.2 + 1 > 10 then (defaultScores, s.2 + 1) else (s.1, s.2 + 1)

/-- Run the smoother from its initial state on a sequence of events. -/
def smootherRun (evs : List (Option Scores)) : Scores × ℕ :=
  evs.foldl smootherStep (defaultScores, 0)

namespace Variant5

/-- Gaussian dead-zone half-width for smile, `TH_SMILE` in `part_005`. -/
def TH_SMILE : ℝ := 0.018

/-- Gaussian dead-zone half-width for mouth openness, `TH_OPEN`. -/
def TH_OPEN : ℝ := 0.018

/-- Sigmoid slope `S1 = 28` in `part_005`. -/
def S1 : ℝ := 28

/-- Sigmoid slope `S2 = 18` in `part_005`. -/
def S2 : ℝ := 18

/-- Raw happy evidence of the `part_005` scorer. -/
def happyRaw (m : Metrics) (b : BaseCalib) : ℝ :=
  0.75 * sigmoid ((m.smileUp - b.smileUp) * S1) +
    0.25 * sigmoid ((m.mouthOpen - b.mouthOpen) * S2) +
    0.05 * sigmoid (-(m.eyeOpen - b.eyeGap) * 60)

/-- Raw sad evidence of the `part_005` scorer. -/
def sadRaw (m : Metrics) (b : BaseCalib) : ℝ :=
  0.7 * sigmoid (-(m.smileUp - b.smileUp) * S1) +
    0.2 * sigmoid ((-(m.mouthOpen - b.mouthOpen) + 0.003) * S2) +
    0.1 * sigmoid ((-(m.eyeOpen - b.eyeGap) + 0.002) * 90)

/-- Raw neutral evidence of the `part_005` scorer: a Gaussian falloff from
the baseline, boosted by 1.4 inside the dead-zone band. -/
def neutralRaw (m : Metrics) (b : BaseCalib) : ℝ :=
  let dSmile := m.smileUp - b.smileUp
  let dOpen := m.mouthOpen - b.mouthOpen
  let zSmile := dSmile / TH_SMILE
  let zOpen := dOpen / TH_OPEN
  Real.exp (-0.5 * (zSmile * zSmile * 0.6 + zOpen * zOpen * 0.6)) *
    (if |dSmile| < TH_SMILE ∧ |dOpen| < TH_OPEN then 1.4 else 1)

/-- From `function softmax3(a, b, c, T)` in `part_005`. -/
def softmax3 (a b c T : ℝ) : ℝ × ℝ × ℝ :=
  let ea := Real.exp (a / T)
  let eb := Real.exp (b / T)
  let ec := Real.exp (c / T)
  let s0 := ea + eb + ec
  let s := if s0 = 0 then 1 else s0
  (ea / s, eb / s, ec / s)

/-- From `function toScores(metrics, calib)` in `part_005` (lines 185-243):
raw evidences, optional neutral/sad exchange, temperature-1.9 softmax, a
0.1 floor on neutral and a final renormalization. -/
def toScores (m : Metrics) (c : Calib) : Scores :=
  let b := c.base.getD defaultBase
  let happy := happyRaw m b
  let sad := sadRaw m b
  let neutral := neutralRaw m b
  let neutral2 := if c.swapNS then sad else neutral
  let sad2 := if c.swapNS then neutral else sad
  let t := softmax3 happy neutral2 sad2 1.9
  let adjN := max t.2.1 0.1
  let renorm0 := t.1 + adjN + t.2.2
  let renorm := if renorm0 = 0 then 1 else renorm0
  ⟨t.1 / renorm, adjN / renorm, t.2.2 / renorm⟩

end Variant5

namespace Variant3

/-- The fixed durable-storage namespace key of the persisted variant,
`const CALIB_KEY = 'mooddj_calib_v2'`. -/
def CALIB_KEY : String := "mooddj_calib_v2"

/-- Per-frame features of the persisted (third) variant. -/
structure Features where
  mw : ℝ
  mh : ℝ
  eye : ℝ
  corner : ℝ

/-- Saved calibration of the persisted variant, `type Calib =
{ neutral?: Features; happy?: Features; sad?: Features }`. -/
structure Calib3 where
  neutral : Option Features
  happy : Option Features
  sad : Option Features

/-- The empty calibration `{}` that `calibRef` starts from. -/
def emptyCalib3 : Calib3 := ⟨none, none, none⟩

/-- The localStorage load effect of the persisted variant:
`try { const raw = localStorage.getItem(CALIB_KEY); if (raw)
calibRef.current = JSON.parse(raw); } catch { }`.  The stored slot is
`none` when the key is absent; `parse` abstracts `JSON.parse`, returning
`none` when it would throw (corrupt data); an empty string is falsy and is
skipped by the `if (raw)` guard. -/
def loadCalib (parse : String → Option Calib3) (stored : Option String) : Calib3 :=
  match stored with
  | none => emptyCalib3
  | some raw => if raw = "" then emptyCalib3 else (parse raw).getD emptyCalib3

end Variant3

/-! ### Basic lemmas about the numeric helpers -/

lemma sigmoid_pos (x : ℝ) : 0 < sigmoid x := by
  unfold sigmoid; positivity

lemma sigmoid_lt_one (x : ℝ) : sigmoid x < 1 := by
  unfold sigmoid
  have h : (0:ℝ) < 1 + Real.exp (-x) := by positivity
  rw [div_lt_one h]
  linarith [Real.exp_pos (-x)]

lemma sigmoid_zero : sigmoid 0 = 1 / 2 := by
  unfold sigmoid
  rw [neg_zero, Real.exp_zero]
  norm_num

lemma clamp01_nonneg (v : ℝ) : 0 ≤ clamp01 v := le_max_left _ _

lemma clamp01_le_one (v : ℝ) : clamp01 v ≤ 1 :=
  max_le (by norm_num) (min_le_left _ _)

lemma clamp01_eq_self {v : ℝ} (h0 : 0 ≤ v) (h1 : v ≤ 1) : clamp01 v = v := by
  unfold clamp01
  rw [min_eq_right h1, max_eq_right h0]

lemma happyRaw_pos (m : Metrics) (b : BaseCalib) : 0 < happyRaw m b := by
  have h1 := sigmoid_pos ((m.smileUp - b.smileUp) * 60)
  have h2 := sigmoid_pos ((m.mouthOpen - b.mouthOpen) * 60)
  unfold happyRaw
  linarith

lemma sadRaw_pos (m : Metrics) (b : BaseCalib) : 0 < sadRaw m b := by
  have h1 := sigmoid_pos (-(m.smileUp - b.smileUp) * 60)
  have h2 := sigmoid_pos ((b.mouthOpen - m.mouthOpen) * 60)
  have h3 := sigmoid_pos ((b.eyeGap - m.eyeOpen) * 80)
  unfold sadRaw
  linarith

lemma neutralRaw_nonneg (m : Metrics) (b : BaseCalib) : 0 ≤ neutralRaw m b :=
  clamp01_nonneg _

/-- The probability-simplex invariant of a score vector: every component in
`[0,1]` and the components summing to `1`. -/
def IsSimplex (s : Scores) : Prop :=
  0 ≤ s.happy ∧ s.happy ≤ 1 ∧ 0 ≤ s.neutral ∧ s.neutral ≤ 1 ∧
    0 ≤ s.sad ∧ s.sad ≤ 1 ∧ s.happy + s.neutral + s.sad = 1

lemma normalize3_simplex {a b c : ℝ} (ha : 0 < a) (hb : 0 ≤ b) (hc : 0 ≤ c) :
    IsSimplex (normalize3 a b c) := by
  have hsum : 0 < a + b + c := by linarith
  have hne : a + b + c ≠ 0 := ne_of_gt hsum
  have ea0 : 0 ≤ a / (a + b + c) := div_nonneg ha.le hsum.le
  have ea1 : a / (a + b + c) ≤ 1 := (div_le_one hsum).2 (by linarith)
  have eb0 : 0 ≤ b / (a + b + c) := div_nonneg hb hsum.le
  have eb1 : b / (a + b + c) ≤ 1 := (div_le_one hsum).2 (by linarith)
  have ec0 : 0 ≤ c / (a + b + c) := div_nonneg hc hsum.le
  have ec1 : c / (a + b + c) ≤ 1 := (div_le_one hsum).2 (by linarith)
  unfold normalize3 IsSimplex
  simp only [hne, if_false]
  rw [clamp01_eq_self ea0 ea1, clamp01_eq_self eb0 eb1, clamp01_eq_self ec0 ec1]
  refine ⟨ea0, ea1, eb0, eb1, ec0, ec1, ?_⟩
  rw [div_add_div_same, div_add_div_same, div_self hne]

lemma toScores_simplex (m : Metrics) (c : Calib) : IsSimplex (toScores m c) := by
  unfold toScores
  set b := c.base.getD defaultBase
  cases hc : c.swapNS
  · simp only [hc, if_false, Bool.false_eq_true]
    exact normalize3_simplex (happyRaw_pos m b) (neutralRaw_nonneg m b) (sadRaw_pos m b).le
  · simp only [hc, if_true]
    exact normalize3_simplex (happyRaw_pos m b) (sadRaw_pos m b).le (neutralRaw_nonneg m b)

namespace Variant5

lemma softmax3_comp_pos (a b c T : ℝ) :
    0 < (softmax3 a b c T).1 ∧ 0 < (softmax3 a b c T).2.1 ∧ 0 < (softmax3 a b c T).2.2 := by
  unfold softmax3
  have hs : (0:ℝ) < Real.exp (a / T) + Real.exp (b / T) + Real.exp (c / T) := by positivity
  simp only [ne_of_gt hs, if_false]
  exact ⟨div_pos (Real.exp_pos _) hs, div_pos (Real.exp_pos _) hs, div_pos (Real.exp_pos _) hs⟩

lemma renorm_simplex {H N S : ℝ} (hH : 0 < H) (hN : 0 < N) (hS : 0 < S) :
    IsSimplex ⟨H / (if H + max N 0.1 + S = 0 then 1 else H + max N 0.1 + S),
      max N 0.1 / (if H + max N 0.1 + S = 0 then 1 else H + max N 0.1 + S),
      S / (if H + max N 0.1 + S = 0 then 1 else H + max N 0.1 + S)⟩ := by
  have hA : (0:ℝ) < max N 0.1 := lt_max_of_lt_left hN
  have hr : 0 < H + max N 0.1 + S := by linarith
  have hne : H + max N 0.1 + S ≠ 0 := ne_of_gt hr
  unfold IsSimplex
  simp only [hne, if_false]
  refine ⟨div_nonneg hH.le hr.le, (div_le_one hr).2 (by linarith),
    div_nonneg hA.le hr.le, (div_le_one hr).2 (by linarith),
    div_nonneg hS.le hr.le, (div_le_one hr).2 (by linarith), ?_⟩
  rw [div_add_div_same, div_add_div_same, div_self hne]

lemma toScores_simplex5 (m : Metrics) (c : Calib) : IsSimplex (toScores m c) := by
  unfold toScores
  set b := c.base.getD defaultBase
  set n2 := if c.swapNS then sadRaw m b else neutralRaw m b
  set s2 := if c.swapNS then neutralRaw m b else sadRaw m b
  obtain ⟨h1, h2, h3⟩ := softmax3_comp_pos (happyRaw m b) n2 s2 1.9
  exact renorm_simplex h1 h2 h3

end Variant5

/-- Claim C1: for every feature vector and every calibration state, the
scorer's normalized output has each of `happy`, `neutral`, `sad` in `[0,1]`
and the three summing to `1`, both for the primary `toScores` of
`useEmotion.ts` and for the `toScores` of `part_005`. -/
theorem claim1_scorer_normalization (m : Metrics) (c : Calib) :
    IsSimplex (toScores m c) ∧ IsSimplex (Variant5.toScores m c) :=
  ⟨toScores_simplex m c, Variant5.toScores_simplex5 m c⟩

/-! ### Swap involution (C8) -/

lemma normalize3_swap (a b c : ℝ) :
    normalize3 a c b =
      ⟨(normalize3 a b c).happy, (normalize3 a b c).sad, (normalize3 a b c).neutral⟩ := by
  unfold normalize3
  have h : a + c + b = a + b + c := by ring
  rw [h]

/-- Claim C8: toggling `swapNeutralSad` twice restores the calibration and
hence the scorer's behavior on every identical input; a single toggle
exchanges exactly the neutral and sad components of the output (the
evidences are exchanged before the shared normalization). -/
theorem claim8_swap_involution (st : EmotionState) (m : Metrics) :
    (swapNeutralSad (swapNeutralSad st)).calib = st.calib
    ∧ toScores m (swapNeutralSad (swapNeutralSad st)).calib = toScores m st.calib
    ∧ (toScores m (swapNeutralSad st).calib).happy = (toScores m st.calib).happy
    ∧ (toScores m (swapNeutralSad st).calib).neutral = (toScores m st.calib).sad
    ∧ (toScores m (swapNeutralSad st).calib).sad = (toScores m st.calib).neutral := by
  rcases hc : st.calib with ⟨cb, cs⟩
  have h1 : (swapNeutralSad st).calib = ⟨cb, !cs⟩ := by
    simp [swapNeutralSad, hc]
  have h2 : (swapNeutralSad (swapNeutralSad st)).calib = ⟨cb, !!cs⟩ := by
    simp [swapNeutralSad, hc]
  rw [h1, h2, Bool.not_not]
  refine ⟨rfl, rfl, ?_, ?_, ?_⟩ <;>
    cases cs <;>
      simp only [toScores, Bool.not_true, Bool.not_false, if_true, if_false,
        Bool.false_eq_true, Bool.true_eq_false, ite_true, ite_false] <;>
      rw [normalize3_swap]

/-! ### Neutral dominance after calibration capture (C9) -/

lemma happyRaw_capture (m : Metrics) : happyRaw m (captureBase m) = 1 / 2 := by
  unfold happyRaw captureBase
  simp only [sub_self, zero_mul, sigmoid_zero]
  norm_num

lemma sadRaw_capture (m : Metrics) : sadRaw m (captureBase m) = 1 / 2 := by
  unfold sadRaw captureBase
  simp only [sub_self, neg_zero, zero_mul, sigmoid_zero]
  norm_num

lemma neutralRaw_capture (m : Metrics) : neutralRaw m (captureBase m) = 1 := by
  unfold neutralRaw captureBase
  simp only [sub_self, abs_zero, zero_mul]
  norm_num [clamp01]

lemma v5_happyRaw_lt (m : Metrics) (b : BaseCalib) : Variant5.happyRaw m b < 1.05 := by
  have h1 := sigmoid_lt_one ((m.smileUp - b.smileUp) * Variant5.S1)
  have h2 := sigmoid_lt_one ((m.mouthOpen - b.mouthOpen) * Variant5.S2)
  have h3 := sigmoid_lt_one (-(m.eyeOpen - b.eyeGap) * 60)
  have p1 := sigmoid_pos ((m.smileUp - b.smileUp) * Variant5.S1)
  have p2 := sigmoid_pos ((m.mouthOpen - b.mouthOpen) * Variant5.S2)
  have p3 := sigmoid_pos (-(m.eyeOpen - b.eyeGap) * 60)
  unfold Variant5.happyRaw
  linarith

lemma v5_sadRaw_lt (m : Metrics) (b : BaseCalib) : Variant5.sadRaw m b < 1 := by
  have h1 := sigmoid_lt_one (-(m.smileUp - b.smileUp) * Variant5.S1)
  have h2 := sigmoid_lt_one ((-(m.mouthOpen - b.mouthOpen) + 0.003) * Variant5.S2)
  have h3 := sigmoid_lt_one ((-(m.eyeOpen - b.eyeGap) + 0.002) * 90)
  have p1 := sigmoid_pos (-(m.smileUp - b.smileUp) * Variant5.S1)
  have p2 := sigmoid_pos ((-(m.mouthOpen - b.mouthOpen) + 0.003) * Variant5.S2)
  have p3 := sigmoid_pos ((-(m.eyeOpen - b.eyeGap) + 0.002) * 90)
  unfold Variant5.sadRaw
  linarith

lemma v5_neutralRaw_capture (m : Metrics) : Variant5.neutralRaw m (captureBase m) = 1.4 := by
  unfold Variant5.neutralRaw captureBase
  simp only [sub_self, zero_div, mul_zero, zero_mul, abs_zero, add_zero, Real.exp_zero]
  norm_num [Variant5.TH_SMILE, Variant5.TH_OPEN]

/-- Claim C9: if the baseline is captured from a feature vector `F` and `F`
itself is then scored against that baseline (all deltas exactly zero), the
raw neutral evidence is strictly the largest of the three raw evidences, in
the primary scorer and in the `part_005` scorer. -/
theorem claim9_neutral_dominates (m : Metrics) :
    happyRaw m (captureBase m) < neutralRaw m (captureBase m)
    ∧ sadRaw m (captureBase m) < neutralRaw m (captureBase m)
    ∧ Variant5.happyRaw m (captureBase m) < Variant5.neutralRaw m (captureBase m)
    ∧ Variant5.sadRaw m (captureBase m) < Variant5.neutralRaw m (captureBase m) := by
  rw [happyRaw_capture, sadRaw_capture, neutralRaw_capture, v5_neutralRaw_capture]
  refine ⟨by norm_num, by norm_num, ?_, ?_⟩
  · linarith [v5_happyRaw_lt m (captureBase m)]
  · linarith [v5_sadRaw_lt m (captureBase m)]

/-! ### The label derivation (C4) -/

/-- Claim C4: the mood label is the pure argmax-with-tie-break function of
the smoothed score vector — happy when `happy ≥ neutral` and `happy ≥ sad`,
else sad when `sad ≥ neutral`, else neutral; in particular
`{happy: 0.34, neutral: 0.33, sad: 0.33}` labels happy and
`{happy: 0.30, neutral: 0.35, sad: 0.35}` labels sad. -/
theorem claim4_label_tie_break (s : Scores) :
    labelOf s = (if s.happy ≥ s.neutral ∧ s.happy ≥ s.sad then Mood.happy
      else if s.sad ≥ s.neutral then Mood.sad else Mood.neutral)
    ∧ labelOf ⟨0.34, 0.33, 0.33⟩ = Mood.happy
    ∧ labelOf ⟨0.30, 0.35, 0.35⟩ = Mood.sad := by
  refine ⟨rfl, ?_, ?_⟩
  · unfold labelOf
    rw [if_pos ⟨by norm_num, by norm_num⟩]
  · unfold labelOf
    rw [if_neg (by push_neg; intro h; norm_num at h ⊢), if_pos (by norm_num)]

/-! ### No-face frames: the miss counter and decay to neutral (C3, C10) -/

lemma stepNoFace_eq (st : EmotionState) : stepNoFace st = missUpdate st 0 := rfl

lemma stepNoFace_small {st : EmotionState} (h : st.missFrames + 1 ≤ 10) :
    stepNoFace st =
      { st with tracking := false, faceCount := 0, missFrames := st.missFrames + 1 } := by
  rw [stepNoFace_eq]
  unfold missUpdate
  rw [if_neg (by omega)]

lemma stepNoFace_reset {st : EmotionState} (h : 10 ≤ st.missFrames) :
    stepNoFace st =
      { st with
        tracking := false
        faceCount := 0
        missFrames := st.missFrames + 1
        ema := defaultScores
        scores := defaultScores
        mood := Mood.neutral } := by
  rw [stepNoFace_eq]
  unfold missUpdate
  rw [if_pos (by omega)]

lemma noFace_le10 : ∀ (k : ℕ) (st : EmotionState), st.missFrames + k ≤ 10 →
    (stepNoFace^[k] st).ema = st.ema ∧ (stepNoFace^[k] st).scores = st.scores ∧
    (stepNoFace^[k] st).mood = st.mood ∧
    (stepNoFace^[k] st).missFrames = st.missFrames + k ∧
    (stepNoFace^[k] st).calib = st.calib ∧ (stepNoFace^[k] st).lastPts = st.lastPts := by
  intro k
  induction k with
  | zero => intro st _; simp
  | succ k ih =>
    intro st h
    rw [Function.iterate_succ_apply]
    rw [stepNoFace_small (by omega)]
    obtain ⟨e1, e2, e3, e4, e5, e6⟩ :=
      ih { st with tracking := false, faceCount := 0, missFrames := st.missFrames + 1 }
        (by simp; omega)
    refine ⟨by simpa using e1, by simpa using e2, by simpa using e3, ?_,
      by simpa using e5, by simpa using e6⟩
    have e4x : (stepNoFace^[k]
        { st with tracking := false, faceCount := 0, missFrames := st.missFrames + 1 }).missFrames
          = st.missFrames + 1 + k := by
      simpa using e4
    rw [e4x]
    omega

lemma noFace_ge11 : ∀ (n : ℕ), 11 ≤ n → ∀ st : EmotionState, st.missFrames = 0 →
    (stepNoFace^[n] st).ema = defaultScores ∧ (stepNoFace^[n] st).scores = defaultScores ∧
    (stepNoFace^[n] st).mood = Mood.neutral ∧ (stepNoFace^[n] st).missFrames = n := by
  intro n hn
  induction n, hn using Nat.le_induction with
  | base =>
    intro st h0
    rw [show (11:ℕ) = 10 + 1 from rfl, Function.iterate_succ_apply']
    obtain ⟨e1, e2, e3, e4, e5, e6⟩ := noFace_le10 10 st (by omega)
    rw [stepNoFace_reset (by rw [e4]; omega)]
    refine ⟨by simp, by simp, by simp, ?_⟩
    show (stepNoFace^[10] st).missFrames + 1 = 11
    rw [e4, h0]
  | succ n hn ih =>
    intro st h0
    rw [Function.iterate_succ_apply']
    obtain ⟨e1, e2, e3, e4⟩ := ih st h0
    rw [stepNoFace_reset (by rw [e4]; omega)]
    refine ⟨by simp, by simp, by simp, ?_⟩
    simp [e4]

/-- Claim C3: from any state whose miss counter is `0`, feeding `n ≥ 11`
consecutive no-face frames drives the smoothed vector exactly to
`{0.33, 0.34, 0.33}` and the label to neutral, and they remain so for
every further no-face frame. -/
theorem claim3_decay_to_neutral (st : EmotionState) (n : ℕ)
    (h0 : st.missFrames = 0) (hn : 11 ≤ n) :
    (stepNoFace^[n] st).ema = ⟨0.33, 0.34, 0.33⟩
    ∧ (stepNoFace^[n] st).scores = ⟨0.33, 0.34, 0.33⟩
    ∧ (stepNoFace^[n] st).mood = Mood.neutral := by
  obtain ⟨e1, e2, e3, _⟩ := noFace_ge11 n hn st h0
  exact ⟨e1, e2, e3⟩

/-- Witness for C3 at the initial state and exactly 11 missed frames. -/
theorem claim3_witness :
    initState.missFrames = 0 ∧ (11:ℕ) ≤ 11
    ∧ (stepNoFace^[11] initState).mood = Mood.neutral :=
  ⟨rfl, by norm_num, (claim3_decay_to_neutral initState 11 rfl (by norm_num)).2.2⟩

/-- Claim C10: a run of at most 10 consecutive no-face frames from a state
with miss counter `0` leaves the smoothed vector, the displayed scores, the
mood label, the calibration and the cached landmarks exactly unchanged;
only the miss counter advances, so the last tracked mood keeps being
reported throughout the window. -/
theorem claim10_stale_mood_window (st : EmotionState) (k : ℕ)
    (h0 : st.missFrames = 0) (hk : k ≤ 10) :
    (stepNoFace^[k] st).ema = st.ema ∧ (stepNoFace^[k] st).scores = st.scores
    ∧ (stepNoFace^[k] st).mood = st.mood ∧ (stepNoFace^[k] st).missFrames = k
    ∧ (stepNoFace^[k] st).calib = st.calib
    ∧ (stepNoFace^[k] st).lastPts = st.lastPts := by
  obtain ⟨e1, e2, e3, e4, e5, e6⟩ := noFace_le10 k st (by omega)
  refine ⟨e1, e2, e3, ?_, e5, e6⟩
  rw [e4, h0, Nat.zero_add]

/-- Witness for C10 at the initial state and a 10-frame no-face run. -/
theorem claim10_witness :
    initState.missFrames = 0 ∧ (10:ℕ) ≤ 10
    ∧ (stepNoFace^[10] initState).mood = initState.mood :=
  ⟨rfl, by norm_num, (claim10_stale_mood_window initState 10 rfl (by norm_num)).2.2.1⟩

/-! ### The smoother stays in the convex hull of its inputs (C2) -/

/-- A score vector viewed as a point of `ℝ³`, to state convexity facts. -/
def Scores.vec (s : Scores) : Fin 3 → ℝ := ![s.happy, s.neutral, s.sad]

@[simp] lemma Scores.vec_zero (s : Scores) : s.vec 0 = s.happy := rfl

@[simp] lemma Scores.vec_one (s : Scores) : s.vec 1 = s.neutral := rfl

@[simp] lemma Scores.vec_two (s : Scores) : s.vec 2 = s.sad := rfl

lemma vec_mem_stdSimplex {s : Scores} (h : IsSimplex s) :
    s.vec ∈ stdSimplex ℝ (Fin 3) := by
  obtain ⟨h1, h2, h3, h4, h5, h6, h7⟩ := h
  constructor
  · intro i
    fin_cases i <;> simpa
  · rw [Fin.sum_univ_three]
    simpa using h7

lemma isSimplex_of_vec {s : Scores} (h : s.vec ∈ stdSimplex ℝ (Fin 3)) :
    IsSimplex s := by
  obtain ⟨hpos, hsum⟩ := h
  have h0 := hpos 0
  have h1 := hpos 1
  have h2 := hpos 2
  rw [Fin.sum_univ_three] at hsum
  simp only [Scores.vec_zero, Scores.vec_one, Scores.vec_two] at h0 h1 h2 hsum
  exact ⟨h0, by linarith, h1, by linarith, h2, by linarith, hsum⟩

lemma emaStep_vec (p r : Scores) :
    (emaStep p r).vec = (1 - ALPHA) • p.vec + ALPHA • r.vec := by
  funext i
  fin_cases i <;>
    simp [emaStep, ALPHA, Scores.vec] <;> ring

/-- The generators of the convex hull the smoothed vector lives in: the
uniform default together with the raw vectors seen so far. -/
def hullSet (raws : List Scores) : Set (Fin 3 → ℝ) :=
  insert defaultScores.vec {v | ∃ r ∈ raws, Scores.vec r = v}

lemma smoother_mem_hull (evs : List (Option Scores)) :
    ∀ (st : Scores × ℕ) (R : Set (Fin 3 → ℝ)),
      defaultScores.vec ∈ R →
      st.1.vec ∈ convexHull ℝ R →
      (∀ r : Scores, some r ∈ evs → r.vec ∈ R) →
      (List.foldl smootherStep st evs).1.vec ∈ convexHull ℝ R := by
  induction evs with
  | nil =>
    intro st R _ hst _
    simpa using hst
  | cons ev evs ih =>
    intro st R hR hst hmem
    rw [List.foldl_cons]
    refine ih _ R hR ?_ fun r hr => hmem r (List.mem_cons_of_mem _ hr)
    cases ev with
    | none =>
      by_cases h10 : st.2 + 1 > 10
      · simp only [smootherStep, h10, if_true]
        exact subset_convexHull ℝ R hR
      · simp only [smootherStep, h10, if_false]
        exact hst
    | some raw =>
      have hr : raw.vec ∈ convexHull ℝ R :=
        subset_convexHull ℝ R (hmem raw (List.mem_cons_self _ _))
      show (emaStep st.1 raw).vec ∈ convexHull ℝ R
      rw [emaStep_vec]
      exact (convex_convexHull ℝ R) hst hr (by norm_num [ALPHA]) (by norm_num [ALPHA])
        (by norm_num [ALPHA])

lemma default_isSimplex : IsSimplex defaultScores := by
  unfold IsSimplex defaultScores
  norm_num

lemma hullSet_subset_stdSimplex {raws : List Scores} (h : ∀ r ∈ raws, IsSimplex r) :
    hullSet raws ⊆ stdSimplex ℝ (Fin 3) := by
  intro v hv
  rcases hv with hv | ⟨r, hr, rfl⟩
  · rw [hv]
    exact vec_mem_stdSimplex default_isSimplex
  · exact vec_mem_stdSimplex (h r hr)

/-- Claim C2: for every event sequence fed to the smoother (a raw simplex
vector per tracked frame, `none` per no-face frame), starting from the
uniform default, the smoothed vector after every prefix — hence after every
EMA step and after every reset — lies in the convex hull of the uniform
default and the raw vectors seen in that prefix, and in particular is
itself a simplex vector (components in `[0,1]`, summing to `1`). -/
theorem claim2_smoother_convexity (evs : List (Option Scores))
    (h : ∀ r : Scores, some r ∈ evs → IsSimplex r) (n : ℕ) :
    (smootherRun (evs.take n)).1.vec ∈
      convexHull ℝ (hullSet ((evs.take n).filterMap id))
    ∧ IsSimplex (smootherRun (evs.take n)).1 := by
  have hsub : ∀ r : Scores, some r ∈ evs.take n → IsSimplex r :=
    fun r hr => h r (List.take_subset n evs hr)
  have hdef : defaultScores.vec ∈ hullSet ((evs.take n).filterMap id) :=
    Set.mem_insert _ _
  have hmemR : ∀ r : Scores, some r ∈ evs.take n →
      r.vec ∈ hullSet ((evs.take n).filterMap id) := by
    intro r hr
    exact Set.mem_insert_of_mem _ ⟨r, by simpa [List.mem_filterMap] using hr, rfl⟩
  have hmem := smoother_mem_hull (evs.take n) (defaultScores, 0) _ hdef
    (subset_convexHull ℝ _ hdef) hmemR
  refine ⟨hmem, ?_⟩
  have hsimplex : ∀ r ∈ (evs.take n).filterMap id, IsSimplex r := by
    intro r hr
    exact hsub r (by simpa [List.mem_filterMap] using hr)
  have hcontain : convexHull ℝ (hullSet ((evs.take n).filterMap id)) ⊆
      stdSimplex ℝ (Fin 3) :=
    convexHull_min (hullSet_subset_stdSimplex hsimplex) (convex_stdSimplex ℝ (Fin 3))
  exact isSimplex_of_vec (hcontain hmem)

/-- Witness for C2 on the concrete event sequence `[some ⟨1,0,0⟩, none]`. -/
theorem claim2_witness :
    (∀ r : Scores, some r ∈ ([some ⟨1, 0, 0⟩, none] : List (Option Scores)) → IsSimplex r)
    ∧ IsSimplex (smootherRun (([some ⟨1, 0, 0⟩, none] :
        List (Option Scores)).take 2)).1 := by
  have h : ∀ r : Scores, some r ∈ ([some ⟨1, 0, 0⟩, none] : List (Option Scores)) →
      IsSimplex r := by
    intro r hr
    rcases List.mem_cons.mp hr with h1 | h1
    · cases Option.some.inj h1
      unfold IsSimplex
      norm_num
    · rcases List.mem_cons.mp h1 with h2 | h2
      · exact absurd h2 (by simp)
      · exact absurd h2 (by simp)
  exact ⟨h, (claim2_smoother_convexity _ h 2).2⟩

/-! ### Malformed landmark sets (C5) -/

lemma extractMetrics_eq_none {pts : List Pt} (h : pts.length ≤ 386) :
    extractMetrics pts = none := by
  have h386 : pts[386]? = none := List.getElem?_eq_none (by omega)
  unfold extractMetrics
  rcases h33 : pts[33]? with _ | p33
  · rfl
  rcases h133 : pts[133]? with _ | p133
  · rfl
  rcases h263 : pts[263]? with _ | p263
  · rfl
  rcases h362 : pts[362]? with _ | p362
  · rfl
  rcases h61 : pts[61]? with _ | p61
  · rfl
  rcases h291 : pts[291]? with _ | p291
  · rfl
  rcases h13 : pts[13]? with _ | p13
  · rfl
  rcases h14 : pts[14]? with _ | p14
  · rfl
  rcases h159 : pts[159]? with _ | p159
  · rfl
  rcases h145 : pts[145]? with _ | p145
  · rfl
  rw [h386]
  rfl

lemma extractMetrics_isSome (pts : List Pt) (h : 387 ≤ pts.length) :
    ∃ m, extractMetrics pts = some m := by
  have e33 := List.getElem?_eq_getElem (l := pts) (show 33 < pts.length by omega)
  have e133 := List.getElem?_eq_getElem (l := pts) (show 133 < pts.length by omega)
  have e263 := List.getElem?_eq_getElem (l := pts) (show 263 < pts.length by omega)
  have e362 := List.getElem?_eq_getElem (l := pts) (show 362 < pts.length by omega)
  have e61 := List.getElem?_eq_getElem (l := pts) (show 61 < pts.length by omega)
  have e291 := List.getElem?_eq_getElem (l := pts) (show 291 < pts.length by omega)
  have e13 := List.getElem?_eq_getElem (l := pts) (show 13 < pts.length by omega)
  have e14 := List.getElem?_eq_getElem (l := pts) (show 14 < pts.length by omega)
  have e159 := List.getElem?_eq_getElem (l := pts) (show 159 < pts.length by omega)
  have e145 := List.getElem?_eq_getElem (l := pts) (show 145 < pts.length by omega)
  have e386 := List.getElem?_eq_getElem (l := pts) (show 386 < pts.length by omega)
  have e374 := List.getElem?_eq_getElem (l := pts) (show 374 < pts.length by omega)
  have : (extractMetrics pts).isSome := by
    unfold extractMetrics
    rw [e33, e133, e263, e362, e61, e291, e13, e14, e159, e145, e386, e374]
    rfl
  exact Option.isSome_iff_exists.mp this

/-- Counterexample to claim C5: a nonempty landmark list with a single
point (shorter than the required index set) is not treated like a no-face
frame — the per-frame step fails exceptionally (`none`) instead of
returning the incremented-miss-counter state that a genuine no-face frame
produces. -/
theorem claim5_counterexample :
    stepFrame initState [[(⟨0, 0⟩ : Pt)]] = none
    ∧ stepFrame initState [] ≠ none := by
  constructor
  · have hx : extractMetrics [(⟨0, 0⟩ : Pt)] = none :=
      extractMetrics_eq_none (by norm_num)
    show (if ([(⟨0, 0⟩ : Pt)]).length = 0 then some (missUpdate initState 1)
      else faceUpdate initState [⟨0, 0⟩] 1) = none
    rw [if_neg (by norm_num)]
    unfold faceUpdate
    rw [hx]
    rfl
  · show some (missUpdate initState 0) ≠ none
    exact Option.some_ne_none _

/-- Claim C5, amended: the metric extractor fails explicitly (no partial or
garbage feature vector) exactly when some required landmark index is
missing, i.e. on every point list of length at most 386, while any list
with at least 387 points — even one shorter than the nominal 468 — is
processed normally; a frame with no face takes the miss branch
(counter incremented), but a nonempty malformed landmark list makes the
frame step itself fail exceptionally instead of being treated as a no-face
frame. -/
theorem claim5_amended (st : EmotionState) (pts : List Pt) :
    (pts.length ≤ 386 →
      extractMetrics pts = none ∧ (pts ≠ [] → stepFrame st [pts] = none))
    ∧ (387 ≤ pts.length → ∃ m, extractMetrics pts = some m)
    ∧ stepFrame st [] = some (missUpdate st 0) := by
  refine ⟨?_, fun h => extractMetrics_isSome pts h, rfl⟩
  intro h
  have hx := extractMetrics_eq_none h
  refine ⟨hx, fun hne => ?_⟩
  have hl : pts.length ≠ 0 := by
    simpa [List.length_eq_zero] using hne
  show (if pts.length = 0 then some (missUpdate st 1)
    else faceUpdate st pts 1) = none
  rw [if_neg hl]
  unfold faceUpdate
  rw [hx]
  rfl

/-- Witness for the amended C5 at the concrete one-point landmark list. -/
theorem claim5_witness :
    ([(⟨0, 0⟩ : Pt)].length ≤ 386)
    ∧ extractMetrics [(⟨0, 0⟩ : Pt)] = none
    ∧ stepFrame initState [[(⟨0, 0⟩ : Pt)]] = none := by
  have h := (claim5_amended initState [⟨0, 0⟩]).1 (by norm_num)
  exact ⟨by norm_num, h.1, h.2 (by simp)⟩

/-! ### Calibration capture guard (C6) -/

/-- A full 468-point landmark set (all points at the origin). -/
def face468 : List Pt := List.replicate 468 ⟨0, 0⟩

lemma face468_length : face468.length = 468 := by
  unfold face468
  exact List.length_replicate _ _

lemma faceUpdate_exists (st : EmotionState) (pts : List Pt) (fc : ℕ) {m : Metrics}
    (hm : extractMetrics pts = some m) :
    ∃ st2, faceUpdate st pts fc = some st2 ∧ st2.calib = st.calib
      ∧ st2.lastPts = some pts := by
  unfold faceUpdate
  rw [hm]
  exact ⟨_, rfl, rfl, rfl⟩

/-- Counterexample to claim C6: after exactly one tracked frame from the
initial state — nowhere near "a minimum run of some dozens of consecutive
frames" — a neutral calibration capture is not ignored: the stored baseline
changes from `none` to a recorded snapshot. -/
theorem claim6_counterexample :
    (stepFrame initState [face468]).map (fun st => st.calib.base) = some none
    ∧ ∃ b, ((stepFrame initState [face468]).bind
        (fun st => captureCalibration Mood.neutral st)).map (fun st => st.calib.base)
        = some (some b) := by
  obtain ⟨m, hm⟩ := extractMetrics_isSome face468 (by rw [face468_length]; omega)
  obtain ⟨st1, h1, hcal, hlast⟩ := faceUpdate_exists initState face468 1 hm
  have hstep : stepFrame initState [face468] = some st1 := by
    show (if face468.length = 0 then some (missUpdate initState 1)
      else faceUpdate initState face468 1) = some st1
    rw [face468_length, if_neg (by norm_num)]
    exact h1
  have hcap : captureCalibration Mood.neutral st1 =
      some { st1 with calib := { st1.calib with base := some (captureBase m) } } := by
    unfold captureCalibration
    rw [if_neg (by simp), hlast]
    dsimp only
    rw [if_neg (by rw [face468_length]; omega), hm]
    rfl
  constructor
  · rw [hstep]
    simp [hcal, initState, defaultCalib]
  · refine ⟨captureBase m, ?_⟩
    rw [hstep]
    simp only [Option.bind_some, Option.some_bind]
    rw [hcap]
    rfl

/-- Claim C6, amended: a neutral capture records the baseline exactly when
a cached landmark set of at least 400 points exists (one tracked frame
suffices — there is no stable-run requirement); captures with a non-neutral
label, with no cached landmarks, or with fewer than 400 cached points are
silently ignored, leaving the whole state (and hence the baseline)
unchanged and raising no error. -/
theorem claim6_amended (st : EmotionState) (w : Mood) :
    (w ≠ Mood.neutral → captureCalibration w st = some st)
    ∧ (st.lastPts = none → captureCalibration w st = some st)
    ∧ (∀ last, st.lastPts = some last → last.length < 400 →
        captureCalibration w st = some st)
    ∧ (∀ last, st.lastPts = some last → 400 ≤ last.length →
        ∃ m, extractMetrics last = some m ∧
          captureCalibration Mood.neutral st =
            some { st with calib := { st.calib with base := some (captureBase m) } }) := by
  refine ⟨?_, ?_, ?_, ?_⟩
  · intro h
    unfold captureCalibration
    rw [if_pos h]
  · intro h
    unfold captureCalibration
    by_cases hw : w ≠ Mood.neutral
    · rw [if_pos hw]
    · rw [if_neg hw, h]
  · intro last hlast hlt
    unfold captureCalibration
    by_cases hw : w ≠ Mood.neutral
    · rw [if_pos hw]
    · rw [if_neg hw, hlast]
      dsimp only
      rw [if_pos hlt]
  · intro last hlast hlen
    obtain ⟨m, hm⟩ := extractMetrics_isSome last (show 387 ≤ last.length by omega)
    refine ⟨m, hm, ?_⟩
    unfold captureCalibration
    rw [if_neg (by simp), hlast]
    dsimp only
    rw [if_neg (by omega), hm]
    rfl

/-- Witness for the amended C6: captures at the initial state (no cached
landmarks, non-neutral label) are silently ignored. -/
theorem claim6_witness :
    initState.lastPts = none
    ∧ captureCalibration Mood.happy initState = some initState
    ∧ captureCalibration Mood.neutral initState = some initState :=
  ⟨rfl, (claim6_amended initState Mood.happy).1 (by decide),
    (claim6_amended initState Mood.neutral).2.1 rfl⟩

/-! ### Calibration persistence (C7) -/

/-- Counterexample to claim C7: in the variant under verification the
calibration store does not survive a remount/restart — whatever the
previous session's calibration was (here a captured baseline with the swap
flag set), the hook comes up with the default in-memory calibration. -/
theorem claim7_counterexample :
    mountCalib ⟨some ⟨0, 0, 0, 0⟩, true⟩ = defaultCalib
    ∧ mountCalib ⟨some ⟨0, 0, 0, 0⟩, true⟩ ≠ ⟨some ⟨0, 0, 0, 0⟩, true⟩ := by
  refine ⟨rfl, ?_⟩
  intro h
  have hb := congrArg Calib.base h
  simp [mountCalib, defaultCalib] at hb

/-- Claim C7, amended: the primary hook keeps calibration in memory only
and reinitializes it to the default on every mount; it is the third
(tfjs/face-api) variant that persists under the fixed namespace key
`mooddj_calib_v2`, and its load falls back to the empty calibration on
missing, falsy or unparseable stored data without raising. -/
theorem claim7_amended (parse : String → Option Variant3.Calib3) :
    Variant3.CALIB_KEY = "mooddj_calib_v2"
    ∧ (∀ prior, mountCalib prior = defaultCalib)
    ∧ Variant3.loadCalib parse none = Variant3.emptyCalib3
    ∧ (∀ raw, raw = "" → Variant3.loadCalib parse (some raw) = Variant3.emptyCalib3)
    ∧ (∀ raw, parse raw = none →
        Variant3.loadCalib parse (some raw) = Variant3.emptyCalib3)
    ∧ (∀ raw c, raw ≠ "" → parse raw = some c →
        Variant3.loadCalib parse (some raw) = c) := by
  refine ⟨rfl, fun _ => rfl, rfl, ?_, ?_, ?_⟩
  · intro raw h
    simp [Variant3.loadCalib, h]
  · intro raw h
    by_cases hr : raw = ""
    · simp [Variant3.loadCalib, hr]
    · simp [Variant3.loadCalib, hr, h]
  · intro raw c hne h
    simp [Variant3.loadCalib, hne, h]

/-- Witness for the amended C7: loading with an always-failing parse from a
concrete nonempty stored string falls back to the empty calibration. -/
theorem claim7_witness :
    ((fun _ : String => (none : Option Variant3.Calib3)) Variant3.CALIB_KEY = none)
    ∧ Variant3.loadCalib (fun _ => none) (some Variant3.CALIB_KEY)
        = Variant3.emptyCalib3 :=
  ⟨rfl, (claim7_amended (fun _ => none)).2.2.2.2.1 Variant3.CALIB_KEY rfl⟩

end

end MoodDJ
